import Mathlib

/-!
Verification of the conversational orchestration core of the VoiceAssistant
repository: the turn-orchestration graph, tool invocation and context
assembly in src/llm_rag_module.py, and its call sites in
src/voice_pipeline.py. External collaborators (the language model, the
vector index, persistence) are modelled as explicit function parameters;
machine behaviour of the orchestration code itself is translated directly
from the source.
-/

namespace VoiceAssistant

/-- Message roles as used by the langchain message types in the source:
system, human (user), ai (assistant) and tool. -/
inductive Role
  | system
  | human
  | ai
  | tool
  deriving DecidableEq

/-- A tool invocation request carried by an ai message. -/
structure ToolCall where
  id : String
  name : String
  args : String
  deriving DecidableEq

/-- One message of a session history, mirroring the langchain message
shape used by the source: a role, text content, the tool calls carried by
an ai message, and the tool_call_id linking a tool message back to its
request. -/
structure Message where
  role : Role
  content : String
  tool_calls : List ToolCall
  tool_call_id : Option String
  deriving DecidableEq

/-- The backward scan of the generate node (src/llm_rag_module.py lines
63-68): walk the reversed history, append messages while their type is
tool, and break at the first non-tool message. -/
def collectTrailingTools : List Message → List Message
  | [] => []
  | m :: rest =>
    if m.role == Role.tool then m :: collectTrailingTools rest else []

/-- recent_tool_messages of the generate node: the backward scan applied
to the reversed history. -/
def recent_tool_messages (msgs : List Message) : List Message :=
  collectTrailingTools msgs.reverse

/-- tool_messages of the generate node: recent_tool_messages reversed
back into chronological order (the slice recent_tool_messages[::-1]). -/
def tool_messages (msgs : List Message) : List Message :=
  (recent_tool_messages msgs).reverse

/-- docs_content of the generate node: the contents of the trailing tool
messages joined with a blank-line separator. -/
def docs_content (msgs : List Message) : String :=
  String.intercalate "\n\n" ((tool_messages msgs).map (fun m => m.content))

/-- The fixed answer-style directive prefixed to the context block in the
fresh system instruction (src/llm_rag_module.py lines 72-78). -/
def systemDirective : String :=
  "You are an assistant for question-answering tasks. " ++
  "Use the following pieces of retrieved context to answer " ++
  "the question. If you don\x27t know the answer, say that you " ++
  "don\x27t know. Use three sentences maximum and keep the " ++
  "answer concise.\n\n"

/-- system_message_content of the generate node: the fixed directive
followed by the context block. -/
def system_message_content (msgs : List Message) : String :=
  systemDirective ++ docs_content msgs

/-- The filter of the generate node (src/llm_rag_module.py lines 80-85):
keep messages whose type is human or system, or ai messages carrying no
tool calls. -/
def conversation_messages (msgs : List Message) : List Message :=
  msgs.filter (fun m =>
    (m.role == Role.human || m.role == Role.system) ||
    (m.role == Role.ai && m.tool_calls.isEmpty))

/-- Builds a plain system message with the given content. -/
def systemMessage (content : String) : Message :=
  { role := Role.system, content := content, tool_calls := [], tool_call_id := none }

/-- The prompt assembled by the generate node: the fresh system
instruction followed by the filtered conversation messages. -/
def generatePrompt (msgs : List Message) : List Message :=
  systemMessage (system_message_content msgs) :: conversation_messages msgs

/-- Spec reading of the context-block rule: the contiguous run of
trailing tool messages of the history, in chronological order (the
reversed takeWhile of the reversed history). -/
def trailingToolRun (msgs : List Message) : List Message :=
  (msgs.reverse.takeWhile (fun m => m.role == Role.tool)).reverse

/-- Events observable during one turn of the orchestration graph: an
invocation of the Completion Capability, or the execution of one
requested tool call. -/
inductive Event
  | completionCall
  | toolExec (id : String)
  deriving DecidableEq

/-- Tests whether an event is a Completion Capability invocation. -/
def isCompletionCall : Event → Bool
  | Event.completionCall => true
  | _ => false

/-- Number of Completion Capability invocations among the events. -/
def completionCount (es : List Event) : Nat :=
  es.countP isCompletionCall

/-- Number of tool executions among the events. -/
def toolExecCount (es : List Event) : Nat :=
  es.countP (fun e => !(isCompletionCall e))

/-- The message a user turn is wrapped into by chat: role user (type
human), plain content. -/
def userMessage (s : String) : Message :=
  { role := Role.human, content := s, tool_calls := [], tool_call_id := none }

/-- The ToolNode wraps the result of each requested tool call into a tool
message linked back by tool_call_id, in request order. -/
def toolResultMessage (runTool : ToolCall → String) (tc : ToolCall) : Message :=
  { role := Role.tool, content := runTool tc, tool_calls := [],
    tool_call_id := some tc.id }

/-- One run of the compiled graph of build_graph (src/llm_rag_module.py
lines 54-104) on an input history, with the Completion Capability
modelled as a fallible function. The entry node query_or_respond invokes
the model on the full history; tools_condition routes to END when the
response carries no tool calls, and otherwise the tools node executes
every requested tool call in request order and the generate node invokes
the model once more on the assembled prompt. On success the value is the
final message list; on failure it is the history already committed by the
finished supersteps (the checkpointer commits the input and each
completed node before the failing call). The event trace records every
Completion invocation and tool execution, including a failing
invocation. -/
def runGraph (complete : List Message → Except Unit Message)
    (runTool : ToolCall → String) (input : List Message) :
    Except (List Message) (List Message) × List Event :=
  match complete input with
  | Except.error _ => (Except.error input, [Event.completionCall])
  | Except.ok r1 =>
    if r1.tool_calls.isEmpty then
      (Except.ok (input ++ [r1]), [Event.completionCall])
    else
      let toolMsgs := r1.tool_calls.map (toolResultMessage runTool)
      let st2 := (input ++ [r1]) ++ toolMsgs
      let events := Event.completionCall
        :: (r1.tool_calls.map (fun tc => Event.toolExec tc.id)
            ++ [Event.completionCall])
      match complete (generatePrompt st2) with
      | Except.error _ => (Except.error st2, events)
      | Except.ok r2 => (Except.ok (st2 ++ [r2]), events)

/-- The session store held by the MemorySaver checkpointer: for each
thread id, the stored message history of that session. -/
abbrev Store := String → List Message

/-- Content of the last message of a history (last.content in chat). -/
def lastContent (msgs : List Message) : String :=
  (msgs.getLast?.map (fun m => m.content)).getD ""

/-- The chat entry point (src/llm_rag_module.py lines 135-146): stream
the graph on the session history named by session_id (defaulting to
"default-thread") extended with the new user message, store the resulting
history under the same session id, and return the content of the last
message; when any step raises, the history committed so far is kept and
the fixed string "Error occurred during chat." is returned. -/
def chat (complete : List Message → Except Unit Message)
    (runTool : ToolCall → String) (store : Store) (user_input : String)
    (session_id : String := "default-thread") : Store × String :=
  let input := store session_id ++ [userMessage user_input]
  match (runGraph complete runTool input).1 with
  | Except.ok msgs => (Function.update store session_id msgs, lastContent msgs)
  | Except.error committed =>
      (Function.update store session_id committed,
        "Error occurred during chat.")

/-- The LLM step of VoicePipeline.process_audio_file
(src/voice_pipeline.py line 98): response_text = self.llm_rag.chat(
input_text), with the session argument omitted. -/
def process_audio_file_llm (complete : List Message → Except Unit Message)
    (runTool : ToolCall → String) (store : Store) (input_text : String) :
    Store × String :=
  chat complete runTool store input_text

/-- The LLM step of VoicePipeline.process_live_conversation
(src/voice_pipeline.py line 162): the same call, session argument
omitted. -/
def process_live_conversation_llm (complete : List Message → Except Unit Message)
    (runTool : ToolCall → String) (store : Store) (input_text : String) :
    Store × String :=
  chat complete runTool store input_text

/-- A retrieved document: its metadata in serialized form and its page
content. -/
structure Doc where
  metadata : String
  page_content : String
  deriving DecidableEq

/-- Serialization of one retrieved document as done inside the retrieve
tool (src/llm_rag_module.py lines 44-47). -/
def serializeDoc (d : Doc) : String :=
  "Source: " ++ d.metadata ++ "\nContent: " ++ d.page_content

/-- The retrieve tool (src/llm_rag_module.py lines 40-48): run a
similarity search with the given query and k = 2 against the vector
store, and return the blank-line-joined serialization of the results
together with the raw documents. The search backend is a parameter. -/
def retrieve (search : String → Nat → List Doc) (query : String) :
    String × List Doc :=
  let retrieved_docs := search query 2
  (String.intercalate "\n\n" (retrieved_docs.map serializeDoc), retrieved_docs)

/-- State of the RAG module's vector store: the in-memory index contents
and the persisted copy on disk. -/
structure RAGState where
  index : List Doc
  persisted : List Doc
  deriving DecidableEq

/-- Wrapping of one content string as Document(page_content=content)
with empty metadata (src/llm_rag_module.py line 111). -/
def mkDocument (content : String) : Doc :=
  { metadata := "", page_content := content }

/-- add_documents (src/llm_rag_module.py lines 106-117): wrap each
content string as a document, add the batch to the vector store, save
the store to the vector_db_path, and return True; any exception is
caught and False is returned. Failure of the two external calls is
modelled by the predicates ingestOk (applied to the added batch) and
persistOk (applied to the index contents being saved); a raising call
leaves its target unchanged. -/
def add_documents (ingestOk : List Doc → Bool) (persistOk : List Doc → Bool)
    (st : RAGState) (documents : List String) : RAGState × Bool :=
  let docs := documents.map mkDocument
  if ingestOk docs then
    let ingested : RAGState := { st with index := st.index ++ docs }
    if persistOk ingested.index then
      ({ ingested with persisted := ingested.index }, true)
    else (ingested, false)
  else (st, false)

/-- Completion capability that always fails (a raising model call). -/
def failingComplete : List Message → Except Unit Message :=
  fun _ => Except.error ()

/-- Completion capability that always answers with a fixed ai message
carrying no tool calls. -/
def constComplete (ans : String) : List Message → Except Unit Message :=
  fun _ => Except.ok
    { role := Role.ai, content := ans, tool_calls := [], tool_call_id := none }

/-- The empty session store. -/
def emptyStore : Store := fun _ => []

/-- Tool runner returning empty content. -/
def noTool : ToolCall → String := fun _ => ""

/-- Search backend echoing the query into a single document. -/
def echoSearch : String → Nat → List Doc :=
  fun q _ => [{ metadata := "m", page_content := q }]

/-- Ingestion that always succeeds. -/
def alwaysIngest : List Doc → Bool := fun _ => true

/-- Ingestion that always fails. -/
def neverIngest : List Doc → Bool := fun _ => false

/-- Persistence that always succeeds. -/
def alwaysPersist : List Doc → Bool := fun _ => true

/-- Persistence that always fails. -/
def neverPersist : List Doc → Bool := fun _ => false

/-- A concrete store state whose persisted copy lags the in-memory
index. -/
def laggingState : RAGState :=
  { index := [mkDocument "a"], persisted := [] }

/-- A concrete session store holding one message under session "b" and
nothing elsewhere. -/
def storeB : Store :=
  fun t => if t = "b" then [userMessage "x"] else []

end VoiceAssistant

namespace VoiceAssistant

/-- The backward scan of the generate node computes exactly the takeWhile
of the reversed history. -/
theorem collectTrailingTools_eq_takeWhile (l : List Message) :
    collectTrailingTools l = l.takeWhile (fun m => m.role == Role.tool) := by
  induction l with
  | nil => rfl
  | cons m rest ih =>
    simp only [collectTrailingTools, List.takeWhile_cons]
    by_cases h : m.role == Role.tool
    · simp [h, ih]
    · simp [h]

/-- Helper: every element of a takeWhile run satisfies the predicate. -/
theorem all_takeWhile' (p : Message → Bool) (l : List Message) :
    (l.takeWhile p).all p = true := by
  induction l with
  | nil => rfl
  | cons m rest ih =>
    simp only [List.takeWhile_cons]
    by_cases h : p m
    · simp [h, ih]
    · simp [h]

/-- Helper: the head of a dropWhile remainder fails the predicate. -/
theorem head?_dropWhile_all (p : Message → Bool) (l : List Message) :
    ((l.dropWhile p).head?.all fun m => !p m) = true := by
  induction l with
  | nil => rfl
  | cons m rest ih =>
    simp only [List.dropWhile_cons]
    by_cases h : p m
    · simp [h, ih]
    · simp [h]

/-- C1: in the SYNTHESIZING step, the context block embedded in the fresh
system instruction is exactly the serialized content of the contiguous run
of trailing tool messages at the tail of the session history, restored to
chronological order and joined with a blank-line separator; the history
decomposes as a prefix not ending in a tool message followed by that run,
so tool messages from earlier turns are excluded. Holds for every history,
with zero or more trailing tool messages. -/
theorem c1_synthesizing_context_block (msgs : List Message) :
    docs_content msgs
      = String.intercalate "\n\n" ((trailingToolRun msgs).map (fun m => m.content))
    ∧ tool_messages msgs = trailingToolRun msgs
    ∧ (tool_messages msgs).all (fun m => m.role == Role.tool) = true
    ∧ ∃ pre, msgs = pre ++ tool_messages msgs
        ∧ (pre.getLast?.all fun m => m.role != Role.tool) = true := by
  have htm : tool_messages msgs = trailingToolRun msgs := by
    unfold tool_messages recent_tool_messages trailingToolRun
    rw [collectTrailingTools_eq_takeWhile]
  refine ⟨by rw [docs_content, htm], htm, ?_, ?_⟩
  · rw [htm]
    unfold trailingToolRun
    rw [List.all_reverse]
    exact all_takeWhile' _ _
  · refine ⟨(msgs.reverse.dropWhile (fun m => m.role == Role.tool)).reverse, ?_, ?_⟩
    · rw [htm]
      unfold trailingToolRun
      rw [← List.reverse_append, List.takeWhile_append_dropWhile, List.reverse_reverse]
    · rw [List.getLast?_reverse]
      exact head?_dropWhile_all _ _

/-- Helper: a message kept by the generate-node filter is neither a tool
message nor an ai message carrying tool calls. -/
theorem conversation_keep_excludes (m : Message)
    (h : ((m.role == Role.human || m.role == Role.system) ||
          (m.role == Role.ai && m.tool_calls.isEmpty)) = true) :
    (!(m.role == Role.tool)
      && !(m.role == Role.ai && !(m.tool_calls == []))) = true := by
  cases hr : m.role <;> cases hl : m.tool_calls <;> simp_all

/-- C2: the prompt sent to the model by the generate step is the fresh
system instruction followed by exactly those history messages whose role
is human or system, or ai messages with an empty tool_calls list, in
original order; tool messages and ai messages carrying tool calls are
excluded from the prompt. -/
theorem c2_generate_prompt (msgs : List Message) :
    generatePrompt msgs
      = systemMessage (system_message_content msgs)
        :: msgs.filter (fun m =>
            (m.role == Role.human || m.role == Role.system) ||
            (m.role == Role.ai && m.tool_calls == []))
    ∧ (conversation_messages msgs).all
        (fun m => !(m.role == Role.tool)
          && !(m.role == Role.ai && !(m.tool_calls == []))) = true := by
  constructor
  · unfold generatePrompt conversation_messages
    congr 1
    apply List.filter_congr
    intro m _
    cases m.tool_calls <;> simp
  · rw [List.all_eq_true]
    intro m hm
    unfold conversation_messages at hm
    exact conversation_keep_excludes m (List.mem_filter.mp hm).2

/-- Helper: invocation counts of one graph run with a never-failing
Completion Capability, as a function of the first response. -/
theorem runGraph_counts (complete : List Message → Message)
    (runTool : ToolCall → String) (input : List Message) :
    completionCount
        (runGraph (fun ms => Except.ok (complete ms)) runTool input).2
      = (if (complete input).tool_calls.isEmpty then 1 else 2)
    ∧ toolExecCount
        (runGraph (fun ms => Except.ok (complete ms)) runTool input).2
      = (if (complete input).tool_calls.isEmpty then 0
         else (complete input).tool_calls.length) := by
  unfold runGraph
  by_cases h : (complete input).tool_calls.isEmpty
  · simp [h, completionCount, toolExecCount, isCompletionCall]
  · simp only [h, Bool.false_eq_true, if_false, reduceIte]
    constructor
    · simp [completionCount, List.countP_cons, List.countP_append,
        List.countP_map, isCompletionCall, Function.comp]
    · simp [toolExecCount, List.countP_cons, List.countP_append,
        List.countP_map, isCompletionCall, Function.comp]

/-- C3: with a Completion Capability that does not fail, a turn through
chat performs exactly one Completion invocation when the first response
carries no tool calls, and exactly two (decide then finalize) when it
carries one or more, however many tool calls were requested; the tool
executions of the turn are exactly the requests of that single first
response, so there is no third model call and no second tool round. -/
theorem c3_completion_invocations_per_turn
    (complete : List Message → Message) (runTool : ToolCall → String)
    (store : Store) (u s : String) :
    completionCount
        (runGraph (fun ms => Except.ok (complete ms)) runTool
          (store s ++ [userMessage u])).2
      = (if (complete (store s ++ [userMessage u])).tool_calls.isEmpty
         then 1 else 2)
    ∧ toolExecCount
        (runGraph (fun ms => Except.ok (complete ms)) runTool
          (store s ++ [userMessage u])).2
      = (if (complete (store s ++ [userMessage u])).tool_calls.isEmpty
         then 0
         else (complete (store s ++ [userMessage u])).tool_calls.length) :=
  runGraph_counts complete runTool (store s ++ [userMessage u])

/-- C5 counterexample: invoking the retrieve tool with the empty query is
not rejected as InvalidToolArguments: with a backend that echoes the
query, the empty query is passed through verbatim to the search and a
normal serialized result is returned. -/
theorem c5_counterexample :
    retrieve echoSearch ""
      = ("Source: m\nContent: ",
         [{ metadata := "m", page_content := "" }]) := by
  rfl

/-- C5 amended: for every query, the empty string included, the retrieve
tool executes the search with the query taken verbatim from the argument
and the fixed result count 2, returning the searched documents together
with their blank-line-joined serialization; no argument validation is
performed and no failure is ever produced. -/
theorem c5_amended_passthrough (search : String → Nat → List Doc)
    (query : String) :
    (retrieve search query).2 = search query 2
    ∧ (retrieve search query).1
      = String.intercalate "\n\n"
          ((search query 2).map
            (fun d => "Source: " ++ d.metadata ++ "\nContent: "
              ++ d.page_content)) :=
  ⟨rfl, rfl⟩

/-- C4 counterexample: at the concrete input "hi" on session "s1", a turn
whose model call raises returns the plain string "Error occurred during
chat.", and a successful turn whose model answers exactly that text
returns the identical value: the failure result is an ordinary answer
string, not a typed failure distinguishable from a normal answer. -/
theorem c4_counterexample :
    (chat failingComplete noTool emptyStore "hi" "s1").2
        = "Error occurred during chat."
    ∧ (chat (constComplete "Error occurred during chat.") noTool emptyStore
          "hi" "s1").2
        = "Error occurred during chat." := by
  exact ⟨rfl, rfl⟩

/-- C4 amended: whenever the graph run of a turn fails, chat returns the
fixed non-empty string "Error occurred during chat.": an ordinary string
of the same type as a successful answer, not a typed failure value. -/
theorem c4_amended_error_string
    (complete : List Message → Except Unit Message)
    (runTool : ToolCall → String) (store : Store) (u s : String)
    (committed : List Message)
    (h : (runGraph complete runTool (store s ++ [userMessage u])).1
          = Except.error committed) :
    (chat complete runTool store u s).2 = "Error occurred during chat."
    ∧ "Error occurred during chat." ≠ "" := by
  constructor
  · simp [chat, h]
  · simp

/-- Witness for the amended C4 at the always-failing completion
capability, input "hi", session "s1". -/
theorem c4_amended_error_string_witness :
    (chat failingComplete noTool emptyStore "hi" "s1").2
        = "Error occurred during chat."
    ∧ "Error occurred during chat." ≠ "" :=
  c4_amended_error_string failingComplete noTool emptyStore "hi" "s1"
    [userMessage "hi"] rfl

/-- C6 counterexample: with the first model call failing on session "s2"
and input "hello", the reported value of chat is the plain string "Error
occurred during chat.", identical to the answer of a normal successful
turn whose model replies with that text: the aborted turn is not
reported as a typed CompletionFailure value. -/
theorem c6_counterexample :
    (chat failingComplete noTool emptyStore "hello" "s2").2
      = (chat (constComplete "Error occurred during chat.") noTool emptyStore
          "hello" "s2").2 := by
  rfl

/-- C6 amended: if the first Completion call of the turn fails, chat
returns the fixed error string "Error occurred during chat." (not a
typed CompletionFailure), and the stored session history is the previous
history extended by exactly the already-appended user message: one
message longer, with no partial assistant message kept. -/
theorem c6_failed_first_call_history
    (complete : List Message → Except Unit Message)
    (runTool : ToolCall → String) (store : Store) (u s : String)
    (h : complete (store s ++ [userMessage u]) = Except.error ()) :
    (chat complete runTool store u s).1 s = store s ++ [userMessage u]
    ∧ ((chat complete runTool store u s).1 s).length = (store s).length + 1
    ∧ (chat complete runTool store u s).2 = "Error occurred during chat." := by
  have hrun : (runGraph complete runTool (store s ++ [userMessage u])).1
      = Except.error (store s ++ [userMessage u]) := by
    unfold runGraph
    rw [h]
  refine ⟨?_, ?_, ?_⟩
  · simp [chat, hrun]
  · simp [chat, hrun]
  · simp [chat, hrun]

/-- Witness for the amended C6 at the always-failing completion
capability, input "hello", session "s2". -/
theorem c6_failed_first_call_history_witness :
    (chat failingComplete noTool emptyStore "hello" "s2").1 "s2"
        = emptyStore "s2" ++ [userMessage "hello"]
    ∧ ((chat failingComplete noTool emptyStore "hello" "s2").1 "s2").length
        = (emptyStore "s2").length + 1
    ∧ (chat failingComplete noTool emptyStore "hello" "s2").2
        = "Error occurred during chat." :=
  c6_failed_first_call_history failingComplete noTool emptyStore "hello" "s2" rfl

/-- C7 counterexample: calling add_documents with the empty list is not a
success-returning no-op: when persistence raises the call returns
failure, and when persistence succeeds it rewrites the persisted copy
(here bringing a lagging persisted copy up to the in-memory index), so
the persisted form is not left unchanged. -/
theorem c7_counterexample :
    (add_documents alwaysIngest neverPersist laggingState []).2 = false
    ∧ (add_documents alwaysIngest alwaysPersist laggingState []).1.persisted
        ≠ laggingState.persisted := by
  constructor
  · rfl
  · decide

/-- C7 amended: add_documents on the empty list wraps and ingests an
empty batch, leaving the in-memory index unchanged, but still attempts
to persist the index; it reports success exactly when the empty
ingestion and the persistence both succeed, and failure when either
raises. -/
theorem c7_amended_empty_batch (ingestOk persistOk : List Doc → Bool)
    (st : RAGState) :
    (add_documents ingestOk persistOk st []).1.index = st.index
    ∧ (add_documents ingestOk persistOk st []).2
        = (ingestOk [] && persistOk st.index) := by
  unfold add_documents
  cases hi : ingestOk ([].map mkDocument) <;>
    cases hp : persistOk (st.index ++ [].map mkDocument) <;>
      simp_all

/-- C8 counterexample: a run where ingestion itself fails and a run
where ingestion succeeds but persistence fails report the identical
value false: the partial failure is not reported as a distinct
PersistenceFailure. -/
theorem c8_counterexample :
    (add_documents neverIngest alwaysPersist laggingState ["b"]).2
      = (add_documents alwaysIngest neverPersist laggingState ["b"]).2 := by
  rfl

/-- C8 amended: add_documents reports a single generic boolean: true
exactly when ingestion of the wrapped batch and persistence of the
resulting index both succeed; a persistence-only partial failure yields
the same false as an ingestion failure, with no distinct
PersistenceFailure value for the caller. -/
theorem c8_amended_generic_failure (ingestOk persistOk : List Doc → Bool)
    (st : RAGState) (documents : List String) :
    (add_documents ingestOk persistOk st documents).2
      = (ingestOk (documents.map mkDocument)
          && persistOk (st.index ++ documents.map mkDocument)) := by
  unfold add_documents
  cases hi : ingestOk (documents.map mkDocument) <;>
    cases hp : persistOk (st.index ++ documents.map mkDocument) <;>
      simp_all

/-- Helper: a chat turn on one session leaves the stored history of every
other session unchanged (both on success and on failure, since either
branch updates only the turn's own session id). -/
theorem chat_frame (complete : List Message → Except Unit Message)
    (runTool : ToolCall → String) (store : Store) (u s t : String)
    (h : t ≠ s) : (chat complete runTool store u s).1 t = store t := by
  cases hr : (runGraph complete runTool (store s ++ [userMessage u])).1 <;>
    simp [chat, hr, Function.update_noteq h]

/-- C9: session histories are keyed by the session identifier and
isolated: a chat turn on session s leaves the stored history of every
distinct session t unchanged, and its effect on session s and its answer
depend only on the stored history of s, not on any other session. -/
theorem c9_session_isolation
    (complete : List Message → Except Unit Message)
    (runTool : ToolCall → String) (store store2 : Store) (s t u : String)
    (hst : s ≠ t) (hs : store s = store2 s) :
    (chat complete runTool store u s).1 t = store t
    ∧ (chat complete runTool store u s).1 s
        = (chat complete runTool store2 u s).1 s
    ∧ (chat complete runTool store u s).2
        = (chat complete runTool store2 u s).2 := by
  have hinput : store s ++ [userMessage u] = store2 s ++ [userMessage u] := by
    rw [hs]
  refine ⟨chat_frame complete runTool store u s t hst.symm, ?_, ?_⟩
  · unfold chat
    rw [hinput]
    cases hr : (runGraph complete runTool (store2 s ++ [userMessage u])).1 <;>
      simp [hr]
  · unfold chat
    rw [hinput]
    cases hr : (runGraph complete runTool (store2 s ++ [userMessage u])).1 <;>
      simp [hr]

/-- Witness for C9 at the distinct concrete sessions "a" and "b", with
two stores agreeing on session "a". -/
theorem c9_session_isolation_witness :
    (chat (constComplete "ok") noTool emptyStore "q" "a").1 "b"
        = emptyStore "b"
    ∧ (chat (constComplete "ok") noTool emptyStore "q" "a").1 "a"
        = (chat (constComplete "ok") noTool storeB "q" "a").1 "a"
    ∧ (chat (constComplete "ok") noTool emptyStore "q" "a").2
        = (chat (constComplete "ok") noTool storeB "q" "a").2 :=
  c9_session_isolation (constComplete "ok") noTool emptyStore storeB "a" "b" "q"
    (by decide) (by decide)

/-- C10: the chat entry point's session parameter defaults to the fixed
string "default-thread", both voice-pipeline call sites invoke chat
without a session argument, and a pair of turns driven through
process_audio_file and process_live_conversation touches no session
other than "default-thread": all pipeline turns share that single
conversation history. -/
theorem c10_pipeline_shares_default_session
    (complete : List Message → Except Unit Message)
    (runTool : ToolCall → String) (store : Store) (a b t : String)
    (ht : t ≠ "default-thread") :
    process_audio_file_llm complete runTool store a
        = chat complete runTool store a "default-thread"
    ∧ process_live_conversation_llm complete runTool store b
        = chat complete runTool store b "default-thread"
    ∧ (process_audio_file_llm complete runTool store a).1 t = store t
    ∧ (process_live_conversation_llm complete runTool
          (process_audio_file_llm complete runTool store a).1 b).1 t
        = store t := by
  have h1 : (process_audio_file_llm complete runTool store a).1 t = store t :=
    chat_frame complete runTool store a "default-thread" t ht
  refine ⟨rfl, rfl, h1, ?_⟩
  calc (process_live_conversation_llm complete runTool
          (process_audio_file_llm complete runTool store a).1 b).1 t
      = (process_audio_file_llm complete runTool store a).1 t :=
        chat_frame complete runTool
          (process_audio_file_llm complete runTool store a).1 b
          "default-thread" t ht
    _ = store t := h1

/-- Witness for C10 at the concrete inputs "one" and "two" and the
unrelated session "other". -/
theorem c10_pipeline_shares_default_session_witness :
    process_audio_file_llm (constComplete "ok") noTool emptyStore "one"
        = chat (constComplete "ok") noTool emptyStore "one" "default-thread"
    ∧ process_live_conversation_llm (constComplete "ok") noTool emptyStore "two"
        = chat (constComplete "ok") noTool emptyStore "two" "default-thread"
    ∧ (process_audio_file_llm (constComplete "ok") noTool emptyStore
          "one").1 "other"
        = emptyStore "other"
    ∧ (process_live_conversation_llm (constComplete "ok") noTool
          (process_audio_file_llm (constComplete "ok") noTool emptyStore
            "one").1 "two").1 "other"
        = emptyStore "other" :=
  c10_pipeline_shares_default_session (constComplete "ok") noTool emptyStore
    "one" "two" "other" (by decide)

end VoiceAssistant
